import Mathlib

/-!
A verification development for the voice-recorder utility
(`src/voice_recorder.py`).  The Python program is shallowly embedded:

* byte strings (WAV containers, serialized timestamps) are `List Nat`
  of byte values / ASCII codes;
* Python floats (wall-clock times, durations, costs) are `ℚ`;
* the external world (audio device, remote transcription endpoint,
  journal file, clipboard, paste keystroke) is an explicit environment
  record `Env` whose fields say how each side effect turns out;
* side effects performed by a method are an explicit `List Effect`;
* a Python exception propagating out of a method is an `Option String`
  (or `Except String _` result) carrying the exception text.

All definitions are translated from `src/voice_recorder.py`, except the
WAV container layout, which the program delegates to the Python `wave`
standard-library module and which is modelled from the spec's canonical
WAV description.
-/

set_option allowUnsafeReducibility true in
attribute [semireducible] Rat.inv Rat.mul Rat.add Rat.sub

/-! ## Little-endian byte encoding (WAV header fields) -/

/-- Two-byte little-endian encoding of a natural number. -/
def u16le (n : Nat) : List Nat := [n % 256, n / 256 % 256]

/-- Four-byte little-endian encoding of a natural number. -/
def u32le (n : Nat) : List Nat :=
  [n % 256, n / 256 % 256, n / 65536 % 256, n / 16777216 % 256]

/-- Decode two little-endian bytes. -/
def le16dec (a b : Nat) : Nat := a + 256 * b

/-- Decode four little-endian bytes. -/
def le32dec (a b c d : Nat) : Nat := a + 256 * b + 65536 * c + 16777216 * d

theorem le16dec_u16le (n : Nat) (h : n < 65536) :
    le16dec (n % 256) (n / 256 % 256) = n := by
  unfold le16dec; omega

theorem le32dec_u32le (n : Nat) (h : n < 4294967296) :
    le32dec (n % 256) (n / 256 % 256) (n / 65536 % 256) (n / 16777216 % 256) = n := by
  unfold le32dec; omega

/-! ## Canonical WAV container

Modelled from the spec: the program hands chunk assembly to the Python
`wave` module (not part of the repository source); the spec describes the
artifact as a canonical WAV container — RIFF header, fmt chunk holding
PCM format 1 / channel count / sample rate / byte rate / block align /
bits per sample, then a data chunk that is the concatenation of the
captured chunks in capture order. -/

/-- The 44-byte canonical WAV header for the given channel count, sample
rate (frames per second), sample width in bytes, and data-chunk byte
length. -/
def wavHeader (channels rate width dataLen : Nat) : List Nat :=
  [82, 73, 70, 70] ++ u32le (36 + dataLen) ++
  [87, 65, 86, 69] ++
  [102, 109, 116, 32] ++ u32le 16 ++ u16le 1 ++
  u16le channels ++ u32le rate ++
  u32le (rate * channels * width) ++ u16le (channels * width) ++
  u16le (8 * width) ++
  [100, 97, 116, 97] ++ u32le dataLen

/-- Encode a WAV container: header followed by the concatenation of the
chunks in capture order. -/
def encodeWav (channels rate width : Nat) (chunks : List (List Nat)) : List Nat :=
  wavHeader channels rate width chunks.flatten.length ++ chunks.flatten

/-- Decode the 44-byte WAV header: checks the RIFF/WAVE/fmt/data magic
bytes, the fmt-chunk size and the PCM format tag, then returns the
channel count, sample rate, sample width in bytes and data length. -/
def decodeWavHeader (bs : List Nat) : Option (Nat × Nat × Nat × Nat) :=
  match bs.take 44 with
  | r1 :: r2 :: r3 :: r4 :: _ :: _ :: _ :: _ :: w1 :: w2 :: w3 :: w4 ::
    f1 :: f2 :: f3 :: f4 :: g1 :: g2 :: g3 :: g4 :: a1 :: a2 :: c1 :: c2 ::
    ra1 :: ra2 :: ra3 :: ra4 :: _ :: _ :: _ :: _ :: _ :: _ :: bi1 :: bi2 ::
    d1 :: d2 :: d3 :: d4 :: l1 :: l2 :: l3 :: l4 :: [] =>
    if r1 = 82 ∧ r2 = 73 ∧ r3 = 70 ∧ r4 = 70 ∧
       w1 = 87 ∧ w2 = 65 ∧ w3 = 86 ∧ w4 = 69 ∧
       f1 = 102 ∧ f2 = 109 ∧ f3 = 116 ∧ f4 = 32 ∧
       le32dec g1 g2 g3 g4 = 16 ∧ le16dec a1 a2 = 1 ∧
       d1 = 100 ∧ d2 = 97 ∧ d3 = 116 ∧ d4 = 97 ∧
       le16dec bi1 bi2 % 8 = 0 then
      some (le16dec c1 c2, le32dec ra1 ra2 ra3 ra4,
            le16dec bi1 bi2 / 8, le32dec l1 l2 l3 l4)
    else none
  | _ => none

theorem wavHeader_length (channels rate width dataLen : Nat) :
    (wavHeader channels rate width dataLen).length = 44 := by
  simp [wavHeader, u16le, u32le]

theorem encodeWav_take_44 (channels rate width : Nat) (chunks : List (List Nat)) :
    (encodeWav channels rate width chunks).take 44 =
      wavHeader channels rate width chunks.flatten.length := by
  unfold encodeWav
  rw [← wavHeader_length channels rate width chunks.flatten.length]
  exact List.take_left _ _

theorem encodeWav_drop_44 (channels rate width : Nat) (chunks : List (List Nat)) :
    (encodeWav channels rate width chunks).drop 44 = chunks.flatten := by
  unfold encodeWav
  rw [← wavHeader_length channels rate width chunks.flatten.length]
  exact List.drop_left _ _

/-- C9: for every channel-count, sample-rate and sample-width triple within
the WAV header field ranges, and every ordered chunk sequence, the encoder
produces a canonical WAV container whose header decodes back to exactly that
triple, and whose data chunk is the concatenation of the chunks in capture
order, so the decoded data length equals the sum of the input chunk
lengths. -/
theorem wav_header_roundtrip (channels rate width : Nat) (chunks : List (List Nat))
    (hch : channels < 65536) (hrate : rate < 4294967296)
    (hw : 8 * width < 65536) (hlen : chunks.flatten.length + 36 < 4294967296) :
    decodeWavHeader (encodeWav channels rate width chunks) =
      some (channels, rate, width, (chunks.map List.length).sum) ∧
    (encodeWav channels rate width chunks).drop 44 = chunks.flatten := by
  refine ⟨?_, encodeWav_drop_44 channels rate width chunks⟩
  rw [← List.length_flatten]
  unfold decodeWavHeader
  rw [encodeWav_take_44]
  generalize chunks.flatten.length = n at hlen ⊢
  simp only [wavHeader, u16le, u32le, List.cons_append, List.nil_append]
  rw [if_pos]
  · simp only [le16dec, le32dec, Option.some.injEq, Prod.mk.injEq]
    omega
  · simp only [le16dec, le32dec, true_and]
    omega

/-- Witness for C9 at the program's own audio settings (mono, 44100 Hz,
16-bit) on a concrete two-chunk capture. -/
theorem wav_header_roundtrip_witness :
    decodeWavHeader (encodeWav 1 44100 2 [[1, 2], [3, 4]]) =
      some (1, 44100, 2, ([[1, 2], [3, 4]].map List.length).sum) ∧
    (encodeWav 1 44100 2 [[1, 2], [3, 4]]).drop 44 = [[1, 2], [3, 4]].flatten :=
  wav_header_roundtrip 1 44100 2 [[1, 2], [3, 4]] (by norm_num) (by norm_num)
    (by norm_num) (by decide)

/-! ## Timestamps (`datetime.now().isoformat()`) -/

/-- A Python `datetime` value as journaled by the program. -/
structure PyDateTime where
  year : Nat
  month : Nat
  day : Nat
  hour : Nat
  minute : Nat
  second : Nat
  microsecond : Nat
  deriving DecidableEq, Repr

/-- Field bounds maintained by Python's `datetime` constructor. -/
def PyDateTime.valid (dt : PyDateTime) : Prop :=
  dt.year < 10000 ∧ 1 ≤ dt.month ∧ dt.month ≤ 12 ∧ 1 ≤ dt.day ∧ dt.day ≤ 31 ∧
  dt.hour ≤ 23 ∧ dt.minute ≤ 59 ∧ dt.second ≤ 59 ∧ dt.microsecond < 1000000

instance (dt : PyDateTime) : Decidable dt.valid := by
  unfold PyDateTime.valid; infer_instance

/-- Zero-padded two-digit ASCII rendering of a number below 100. -/
def pad2 (n : Nat) : List Nat := [48 + n / 10, 48 + n % 10]

/-- `datetime.isoformat()` as a list of ASCII codes:
`YYYY-MM-DDTHH:MM:SS` followed by `.ffffff` unless the microsecond
field is zero. -/
def isoFormat (dt : PyDateTime) : List Nat :=
  pad2 (dt.year / 100) ++ pad2 (dt.year % 100) ++ [45] ++
  pad2 dt.month ++ [45] ++ pad2 dt.day ++ [84] ++
  pad2 dt.hour ++ [58] ++ pad2 dt.minute ++ [58] ++ pad2 dt.second ++
  (if dt.microsecond = 0 then [] else
    [46] ++ pad2 (dt.microsecond / 10000) ++
    pad2 (dt.microsecond / 100 % 100) ++ pad2 (dt.microsecond % 100))

/-- Read two ASCII digits as a number below 100. -/
def digit2 (a b : Nat) : Option Nat :=
  if 48 ≤ a ∧ a ≤ 57 ∧ 48 ≤ b ∧ b ≤ 57 then some ((a - 48) * 10 + (b - 48))
  else none

/-- Parse an ISO timestamp as produced by `isoFormat`. -/
def parseTimestamp (l : List Nat) : Option PyDateTime :=
  match l with
  | y1 :: y2 :: y3 :: y4 :: s1 :: mo1 :: mo2 :: s2 :: d1 :: d2 :: s3 ::
    h1 :: h2 :: s4 :: mi1 :: mi2 :: s5 :: se1 :: se2 :: rest =>
    if s1 = 45 ∧ s2 = 45 ∧ s3 = 84 ∧ s4 = 58 ∧ s5 = 58 then
      match digit2 y1 y2, digit2 y3 y4, digit2 mo1 mo2, digit2 d1 d2,
            digit2 h1 h2, digit2 mi1 mi2, digit2 se1 se2 with
      | some yh, some yl, some mo, some d, some h, some mi, some se =>
        match rest with
        | [] => some ⟨yh * 100 + yl, mo, d, h, mi, se, 0⟩
        | dot :: u1 :: u2 :: u3 :: u4 :: u5 :: u6 :: [] =>
          if dot = 46 then
            match digit2 u1 u2, digit2 u3 u4, digit2 u5 u6 with
            | some uh, some um, some ul =>
              some ⟨yh * 100 + yl, mo, d, h, mi, se, uh * 10000 + um * 100 + ul⟩
            | _, _, _ => none
          else none
        | _ => none
      | _, _, _, _, _, _, _ => none
    else none
  | _ => none

theorem digit2_pad2 (n : Nat) (h : n < 100) :
    digit2 (48 + n / 10) (48 + n % 10) = some n := by
  unfold digit2
  rw [if_pos (by omega)]
  congr 1
  omega

/-- Parsing inverts `isoFormat` on every valid datetime. -/
theorem parseTimestamp_isoFormat (dt : PyDateTime) (h : dt.valid) :
    parseTimestamp (isoFormat dt) = some dt := by
  obtain ⟨y, mo, d, hh, mi, se, u⟩ := dt
  obtain ⟨h1, h2, h3, h4, h5, h6, h7, h8, h9⟩ := h
  dsimp only at h1 h2 h3 h4 h5 h6 h7 h8 h9
  by_cases hu : u = 0
  · subst hu
    simp only [isoFormat, pad2, List.cons_append, List.nil_append]
    simp only [parseTimestamp]
    simp only [and_self, if_true]
    rw [digit2_pad2 _ (by omega), digit2_pad2 _ (by omega), digit2_pad2 _ (by omega),
        digit2_pad2 _ (by omega), digit2_pad2 _ (by omega), digit2_pad2 _ (by omega),
        digit2_pad2 _ (by omega)]
    simp only [Option.some.injEq, PyDateTime.mk.injEq, and_true, true_and]
    omega
  · simp only [isoFormat, pad2, List.cons_append, List.nil_append, if_neg hu]
    simp only [parseTimestamp]
    simp only [and_self, if_true]
    rw [digit2_pad2 _ (by omega), digit2_pad2 _ (by omega), digit2_pad2 _ (by omega),
        digit2_pad2 _ (by omega), digit2_pad2 _ (by omega), digit2_pad2 _ (by omega),
        digit2_pad2 _ (by omega)]
    rw [digit2_pad2 _ (by omega), digit2_pad2 _ (by omega), digit2_pad2 _ (by omega)]
    simp only [Option.some.injEq, PyDateTime.mk.injEq, and_true, true_and]
    omega

/-! ## Rounding (`round(x, d)` on floats, modelled on `ℚ`)

Python rounds ties to even; `round` on `ℚ` rounds ties up.  No claim in
this development depends on the tie-breaking direction. -/

/-- Round to `d` decimal digits. -/
def roundTo (x : ℚ) (d : Nat) : ℚ := (round (x * 10 ^ d) : ℤ) / 10 ^ d

theorem roundTo_nonneg (x : ℚ) (d : Nat) (h : 0 ≤ x) : 0 ≤ roundTo x d := by
  unfold roundTo
  apply div_nonneg
  · have h0 : (0 : ℤ) ≤ round (x * 10 ^ d) := by
      rw [round_eq]
      exact Int.floor_nonneg.mpr (by positivity)
    exact_mod_cast h0
  · positivity

/-! ## Configuration and `VoiceRecorder.__init__` (lines 42–100) -/

/-- The ASCII whitespace removed by `str.strip()`. -/
def isPySpace (c : Char) : Bool :=
  c == ' ' || c == '\t' || c == '\n' || c == '\r' || c == '\x0b' || c == '\x0c'

/-- Python's `str.strip()` (used on the endpoint's response, line 338). -/
def pyStrip (s : String) : String :=
  String.mk (((s.data.dropWhile isPySpace).reverse.dropWhile isPySpace).reverse)

/-- Python truthiness of an optional string: `None` and `""` are falsy. -/
def pyTruthy : Option String → Bool
  | none => false
  | some s => !(s == "")

/-- Whether `pat` starts the list `l`. -/
def startsWithL : List Char → List Char → Bool
  | [], _ => true
  | _ :: _, [] => false
  | p :: ps, c :: cs => p == c && startsWithL ps cs

/-- Python's `pat in s` substring test. -/
def occursIn (pat : List Char) : List Char → Bool
  | [] => startsWithL pat []
  | c :: cs => startsWithL pat (c :: cs) || occursIn pat cs

/-- The environment-style configuration read by `__init__` and `run`. -/
structure Config where
  AZURE_OPENAI_API_KEY : Option String
  AZURE_OPENAI_ENDPOINT : Option String
  AZURE_OPENAI_DEPLOYMENT_NAME : Option String
  OPENAI_API_KEY : Option String
  VOICE_EFFECTS : Option String
  deriving DecidableEq

/-- `if azure_api_key and azure_endpoint:` (line 52). -/
def azureConfigured (cfg : Config) : Bool :=
  pyTruthy cfg.AZURE_OPENAI_API_KEY && pyTruthy cfg.AZURE_OPENAI_ENDPOINT

/-- `os.getenv('AZURE_OPENAI_DEPLOYMENT_NAME', 'gpt-4o-transcribe')` (line 53). -/
def deploymentName (cfg : Config) : String :=
  cfg.AZURE_OPENAI_DEPLOYMENT_NAME.getD "gpt-4o-transcribe"

/-- The provider identifier fixed by `__init__` (lines 55, 73). -/
def apiProvider (cfg : Config) : String :=
  if azureConfigured cfg then "Azure OpenAI (" ++ deploymentName cfg ++ ")"
  else "OpenAI"

/-- The per-minute price fixed by `__init__` (lines 62–76). -/
def costPerMinute (cfg : Config) : ℚ :=
  if azureConfigured cfg then
    if occursIn "gpt-4o-mini-transcribe".data (deploymentName cfg).data then 3 / 1000
    else if occursIn "gpt-4o-transcribe".data (deploymentName cfg).data then 6 / 1000
    else 6 / 1000
  else 6 / 1000

/-- Python's `str.lower()` on ASCII letters. -/
def pyLower (s : String) : String :=
  String.mk (s.data.map fun c =>
    if 65 ≤ c.toNat ∧ c.toNat ≤ 90 then Char.ofNat (c.toNat + 32) else c)

/-- `os.getenv('VOICE_EFFECTS', 'on').lower() not in ['0', 'off', 'false', 'no']`
(line 97). -/
def voiceEffectsEnabled (cfg : Config) : Bool :=
  !(["0", "off", "false", "no"].contains (pyLower (cfg.VOICE_EFFECTS.getD "on")))

/-! ## Usage journal records (lines 341–352 and 371–378) -/

/-- One line of the `voice_recorder_usage.jsonl` journal.  Each `Option`
field models a JSON key that is present in one of the two record shapes
and absent from the other. -/
structure UsageRecord where
  timestamp : List Nat
  api_provider : String
  recording_duration_seconds : ℚ
  recording_duration_minutes : Option ℚ
  file_size_bytes : Nat
  file_size_kb : Option ℚ
  api_response_time_seconds : Option ℚ
  transcription_length_chars : Option Nat
  estimated_cost_usd : Option ℚ
  transcription_text : Option String
  error : Option String
  status : Option String
  deriving DecidableEq

/-- The `usage_data` record journaled on a successful transcription
(lines 341–352). -/
def successRecord (now : PyDateTime) (provider : String) (dur minutes : ℚ)
    (fileSize : Nat) (apiDur : ℚ) (result : String) (cost : ℚ) : UsageRecord :=
  { timestamp := isoFormat now
    api_provider := provider
    recording_duration_seconds := roundTo dur 2
    recording_duration_minutes := some (roundTo minutes 4)
    file_size_bytes := fileSize
    file_size_kb := some (roundTo ((fileSize : ℚ) / 1024) 1)
    api_response_time_seconds := some (roundTo apiDur 2)
    transcription_length_chars := some result.length
    estimated_cost_usd := some (roundTo cost 6)
    transcription_text := some (if result.length > 100 then result.take 100 ++ "..."
                                else result)
    error := none
    status := none }

/-- The `error_data` record journaled on a failed attempt (lines 371–378). -/
def failureRecord (now : PyDateTime) (provider : String) (dur : ℚ)
    (fileSize : Nat) (msg : String) : UsageRecord :=
  { timestamp := isoFormat now
    api_provider := provider
    recording_duration_seconds := roundTo dur 2
    recording_duration_minutes := none
    file_size_bytes := fileSize
    file_size_kb := none
    api_response_time_seconds := none
    transcription_length_chars := none
    estimated_cost_usd := none
    transcription_text := none
    error := some msg
    status := some "failed" }

/-! ## Side effects and the external environment -/

/-- One observable side effect of a recorder method. -/
inductive Effect where
  | warn (msg : String)
  | logError (msg : String)
  | cue (event : String)
  | spawnThread
  | joinThread
  | createTempFile
  | writeWav
  | unlinkTempFile
  | journalAppend (r : UsageRecord)
  | clipboardWrite (text : String)
  | sleepSettle
  | pasteKeystroke
  deriving DecidableEq

instance {e a : Type} [DecidableEq e] [DecidableEq a] : DecidableEq (Except e a) := fun x y =>
  match x, y with
  | Except.ok v, Except.ok w =>
      if h : v = w then Decidable.isTrue (by rw [h])
      else Decidable.isFalse (fun hc => h (Except.ok.inj hc))
  | Except.error v, Except.error w =>
      if h : v = w then Decidable.isTrue (by rw [h])
      else Decidable.isFalse (fun hc => h (Except.error.inj hc))
  | Except.ok _, Except.error _ => Decidable.isFalse (fun hc => Except.noConfusion hc)
  | Except.error _, Except.ok _ => Decidable.isFalse (fun hc => Except.noConfusion hc)

/-- How each external interaction of one stop/transcribe cycle turns out.
`apiResult` is the remote transcription endpoint (raw text, or the
exception text); `journalOk1` / `journalOk2` say whether the success-path
and the failure-path journal appends succeed, and `journalFailMsg1` /
`journalFailMsg2` are the exception texts when they fail. -/
structure Env where
  now : PyDateTime
  startTime : ℚ
  timeAtTranscribe : ℚ
  apiDuration : ℚ
  apiResult : Except String String
  journalOk1 : Bool
  journalFailMsg1 : String
  journalOk2 : Bool
  journalFailMsg2 : String
  wavWriteOk : Bool
  clipboardOk : Bool
  clipboardErrMsg : String
  pasteOk : Bool
  deriving DecidableEq

/-- The mutable fields of a `VoiceRecorder` instance, plus the constants
fixed by `__init__`. -/
structure RState where
  api_provider : String
  cost_per_minute : ℚ
  is_recording : Bool
  audio_frames : List (List Nat)
  recording_thread : Bool
  recording_start_time : Option ℚ
  CHANNELS : Nat
  RATE : Nat
  sampleWidth : Nat
  voice_effects_enabled : Bool
  deriving DecidableEq

/-- `VoiceRecorder.__init__` (lines 42–100). -/
def initState (cfg : Config) : RState :=
  { api_provider := apiProvider cfg
    cost_per_minute := costPerMinute cfg
    is_recording := false
    audio_frames := []
    recording_thread := false
    recording_start_time := none
    CHANNELS := 1
    RATE := 44100
    sampleWidth := 2
    voice_effects_enabled := voiceEffectsEnabled cfg }

/-- `audio_cue` (lines 186–204): emits a cue only when voice effects are
enabled; never raises. -/
def audio_cue (s : RState) (event : String) : List Effect :=
  if s.voice_effects_enabled then [Effect.cue event] else []

/-! ## The capture loop (`record`, lines 219–249)

The loop body blocks on one device read per iteration while the recording
flag stays set.  A run is abstracted as the sequence of read results the
loop observed before the stop flag: a `chunk` event is one successful
`stream.read`, an `err` event is a read that raised, and the end of the
list is the loop observing the cleared flag. -/

/-- One observed device read. -/
inductive ReadEvent where
  | chunk (data : List Nat)
  | err (msg : String)
  deriving DecidableEq

/-- The chunks appended before the loop ended, and the exception text if a
read raised. -/
def readOutcome : List ReadEvent → List (List Nat) × Option String
  | [] => ([], none)
  | ReadEvent.chunk d :: rest =>
      let o := readOutcome rest
      (d :: o.1, o.2)
  | ReadEvent.err m :: _ => ([], some m)

/-- What one run of the capture loop leaves behind. -/
structure RecordOutcome where
  frames : List (List Nat)
  streamClosed : Bool
  audioTerminated : Bool
  flagCleared : Bool
  effects : List Effect
  deriving DecidableEq

/-- The `record` closure (lines 219–249).  On normal termination the
stream is stopped and closed and the PyAudio handle terminated
(lines 242–244); a raising read jumps to the `except` handler
(lines 246–249), which logs the error, clears the recording flag and
plays the error cue — the stream stays open. -/
def record (enabled : Bool) (events : List ReadEvent) : RecordOutcome :=
  match readOutcome events with
  | (fr, none) =>
      { frames := fr
        streamClosed := true
        audioTerminated := true
        flagCleared := false
        effects := [] }
  | (fr, some m) =>
      { frames := fr
        streamClosed := false
        audioTerminated := false
        flagCleared := true
        effects := [Effect.logError m] ++ (if enabled then [Effect.cue "error"] else []) }

/-! ## `transcribe_audio` (lines 313–383) -/

/-- The outcome of `transcribe_audio`: its side effects and either the
returned `Optional[str]` or a propagating exception. -/
structure TResult where
  effects : List Effect
  result : Except String (Option String)
  deriving DecidableEq

/-- `recording_duration` (line 318): elapsed wall-clock time, or `0` when
no start timestamp was recorded. -/
def recordingDuration (s : RState) (env : Env) : ℚ :=
  match s.recording_start_time with
  | some t => env.timeAtTranscribe - t
  | none => 0

/-- `estimated_cost = (duration / 60) * cost_per_minute` (lines 319–320). -/
def estimatedCost (durationSeconds rate : ℚ) : ℚ := durationSeconds / 60 * rate

/-- The `except` handler of `transcribe_audio` (lines 366–383): logs the
error, plays the error cue, then appends the failure record; when that
append itself raises, the exception propagates out of `transcribe_audio`. -/
def transcribeFailure (s : RState) (env : Env) (dur : ℚ) (fileSize : Nat)
    (msg : String) : TResult :=
  if env.journalOk2 then
    { effects := [Effect.logError msg] ++ audio_cue s "error" ++
        [Effect.journalAppend (failureRecord env.now s.api_provider dur fileSize msg)]
      result := Except.ok none }
  else
    { effects := [Effect.logError msg] ++ audio_cue s "error"
      result := Except.error env.journalFailMsg2 }

/-- `transcribe_audio` (lines 313–383).  The success-path journal append
(lines 355–356) sits inside the `try`, so its failure is caught by the
same blanket `except` as a remote-call failure. -/
def transcribe_audio (s : RState) (env : Env) (fileSize : Nat) : TResult :=
  let dur := recordingDuration s env
  let minutes := dur / 60
  let cost := minutes * s.cost_per_minute
  match env.apiResult with
  | Except.ok raw =>
      let result := pyStrip raw
      if env.journalOk1 then
        { effects := [Effect.journalAppend
            (successRecord env.now s.api_provider dur minutes fileSize
              env.apiDuration result cost)]
          result := Except.ok (some result) }
      else
        transcribeFailure s env dur fileSize env.journalFailMsg1
  | Except.error msg => transcribeFailure s env dur fileSize msg

/-! ## `paste_text` (lines 385–430) -/

/-- The outcome of `paste_text`: its side effects and a propagating
exception, if any. -/
structure PResult where
  effects : List Effect
  raised : Option String
  deriving DecidableEq

/-- `paste_text` (lines 385–430).  `pyperclip.copy` (line 389) runs before
the `try`, so a clipboard failure propagates; the keystroke injection is
inside the `try` and its failure is only logged. -/
def paste_text (env : Env) (text : String) : PResult :=
  if env.clipboardOk then
    if env.pasteOk then
      { effects := [Effect.clipboardWrite text, Effect.sleepSettle, Effect.pasteKeystroke]
        raised := none }
    else
      { effects := [Effect.clipboardWrite text, Effect.sleepSettle,
          Effect.logError "Paste failed"]
        raised := none }
  else
    { effects := [], raised := some env.clipboardErrMsg }

/-! ## `start_recording` and `stop_recording` (lines 206–311) -/

/-- `start_recording` (lines 206–253): the no-op branch when already
recording, otherwise stamping the session start, playing the start cue,
setting the flag, clearing the chunk list and spawning the capture
thread. -/
def start_recording (s : RState) (env : Env) : RState × List Effect :=
  if s.is_recording then
    (s, [Effect.warn "Already recording, ignoring start request"])
  else
    ({ s with recording_start_time := some env.startTime
              is_recording := true
              audio_frames := []
              recording_thread := true },
     audio_cue s "start" ++ [Effect.spawnThread])

/-- The outcome of `stop_recording`: the updated instance state, the side
effects, and a propagating exception, if any. -/
structure SResult where
  state : RState
  effects : List Effect
  raised : Option String
  deriving DecidableEq

/-- `stop_recording` (lines 255–311): the no-op branch when idle; then
clearing the flag, the stop cue, joining the capture thread, the
empty-capture guard, writing the temporary WAV container, the
transcription attempt, deleting the temporary file, and delivering a
truthy result (or playing the error cue for `None` or an empty string). -/
def stop_recording (s : RState) (env : Env) : SResult :=
  if s.is_recording = false then
    { state := s, effects := [Effect.warn "Not recording, ignoring stop request"]
      raised := none }
  else
    let s1 := { s with is_recording := false }
    let e1 := audio_cue s1 "stop" ++
      (if s1.recording_thread then [Effect.joinThread] else [])
    if s1.audio_frames = [] then
      { state := s1
        effects := e1 ++ [Effect.warn "No audio data recorded"] ++ audio_cue s1 "error"
        raised := none }
    else
      let e2 := e1 ++ [Effect.createTempFile]
      if env.wavWriteOk then
        let wav := encodeWav s1.CHANNELS s1.RATE s1.sampleWidth s1.audio_frames
        let e3 := e2 ++ [Effect.writeWav]
        let t := transcribe_audio s1 env wav.length
        match t.result with
        | Except.error m => { state := s1, effects := e3 ++ t.effects, raised := some m }
        | Except.ok transcription =>
          let e4 := e3 ++ t.effects ++ [Effect.unlinkTempFile]
          match transcription with
          | some txt =>
            if txt = "" then
              { state := s1
                effects := e4 ++ [Effect.warn "No transcription received"] ++
                  audio_cue s1 "error"
                raised := none }
            else
              let p := paste_text env txt
              match p.raised with
              | none =>
                { state := s1, effects := e4 ++ p.effects ++ audio_cue s1 "success"
                  raised := none }
              | some m => { state := s1, effects := e4 ++ p.effects, raised := some m }
          | none =>
            { state := s1
              effects := e4 ++ [Effect.warn "No transcription received"] ++
                audio_cue s1 "error"
              raised := none }
      else
        { state := s1
          effects := e2 ++ [Effect.logError "Error writing audio file"] ++
            audio_cue s1 "error"
          raised := none }

/-! ## Observers over effect lists -/

/-- The journal records appended by a list of effects, in order. -/
def journalRecords (es : List Effect) : List UsageRecord :=
  es.filterMap fun e =>
    match e with
    | Effect.journalAppend r => some r
    | _ => none

/-- Whether the delivery sink was invoked: a clipboard write or a paste
keystroke happened. -/
def deliveryInvoked (es : List Effect) : Bool :=
  es.any fun e =>
    match e with
    | Effect.clipboardWrite _ => true
    | Effect.pasteKeystroke => true
    | _ => false

/-- Whether the cue for the given lifecycle event was played. -/
def cuePlayed (es : List Effect) (event : String) : Bool :=
  es.any fun e => e == Effect.cue event

/-- Whether the capture thread was spawned. -/
def threadSpawned (es : List Effect) : Bool :=
  es.any fun e => e == Effect.spawnThread

@[simp]
theorem journalRecords_append (a b : List Effect) :
    journalRecords (a ++ b) = journalRecords a ++ journalRecords b :=
  List.filterMap_append a b _

@[simp]
theorem journalRecords_audio_cue (s : RState) (e : String) :
    journalRecords (audio_cue s e) = [] := by
  unfold audio_cue journalRecords
  split <;> rfl

@[simp]
theorem journalRecords_join_ite (b : Bool) :
    journalRecords (if b then [Effect.joinThread] else []) = [] := by
  cases b <;> rfl

@[simp]
theorem deliveryInvoked_append (a b : List Effect) :
    deliveryInvoked (a ++ b) = (deliveryInvoked a || deliveryInvoked b) :=
  List.any_append

@[simp]
theorem deliveryInvoked_audio_cue (s : RState) (e : String) :
    deliveryInvoked (audio_cue s e) = false := by
  unfold audio_cue deliveryInvoked
  split <;> rfl

@[simp]
theorem deliveryInvoked_join_ite (b : Bool) :
    deliveryInvoked (if b then [Effect.joinThread] else []) = false := by
  cases b <;> rfl

@[simp]
theorem cuePlayed_append (a b : List Effect) (ev : String) :
    cuePlayed (a ++ b) ev = (cuePlayed a ev || cuePlayed b ev) :=
  List.any_append

@[simp]
theorem cuePlayed_join_ite (b : Bool) (ev : String) :
    cuePlayed (if b then [Effect.joinThread] else []) ev = false := by
  cases b <;> rfl

/-! ## Concrete fixtures used by the witnesses -/

/-- A configuration with only an OpenAI key set. -/
def demoConfig : Config := ⟨none, none, none, some "sk-demo", none⟩

/-- A concrete timestamp. -/
def demoNow : PyDateTime := ⟨2026, 10, 12, 9, 30, 5, 0⟩

/-- A fully successful environment: a one-minute session whose remote call
returns `" hello "`, with every journal write, the WAV write, the
clipboard and the paste succeeding. -/
def demoEnv : Env :=
  { now := demoNow
    startTime := 0
    timeAtTranscribe := 60
    apiDuration := 2
    apiResult := Except.ok " hello "
    journalOk1 := true
    journalFailMsg1 := "journal append failed in try"
    journalOk2 := true
    journalFailMsg2 := "journal append failed in handler"
    wavWriteOk := true
    clipboardOk := true
    clipboardErrMsg := "clipboard unavailable"
    pasteOk := true }

/-- The freshly constructed (idle) recorder. -/
def demoIdle : RState := initState demoConfig

/-- The recorder mid-session, with two captured chunks. -/
def demoRecording : RState :=
  { (start_recording demoIdle demoEnv).1 with audio_frames := [[1, 2], [3, 4]] }

/-- C1: a `start_recording` while already recording and a `stop_recording`
while idle are no-ops: the state (recording flag, chunk list, session
start time) is unchanged, no session or capture thread is created, no
audio cue is emitted, and the only effect is a logged warning. -/
theorem wrong_state_toggles_are_noops (s : RState) (env : Env) :
    (s.is_recording = true →
      start_recording s env =
        (s, [Effect.warn "Already recording, ignoring start request"])) ∧
    (s.is_recording = false →
      stop_recording s env =
        { state := s
          effects := [Effect.warn "Not recording, ignoring stop request"]
          raised := none }) := by
  constructor
  · intro h
    simp [start_recording, h]
  · intro h
    simp [stop_recording, h]

/-- Witness for C1: the concrete mid-session recorder ignores `start`, the
concrete idle recorder ignores `stop`. -/
theorem wrong_state_toggles_are_noops_witness :
    start_recording demoRecording demoEnv =
      (demoRecording, [Effect.warn "Already recording, ignoring start request"]) ∧
    stop_recording demoIdle demoEnv =
      { state := demoIdle
        effects := [Effect.warn "Not recording, ignoring stop request"]
        raised := none } :=
  ⟨(wrong_state_toggles_are_noops demoRecording demoEnv).1 (by decide),
   (wrong_state_toggles_are_noops demoIdle demoEnv).2 (by decide)⟩

/-- C3 counterexample: in a run whose first device read raises, the
capture loop leaves the stream open and the PyAudio handle unterminated —
the `except` handler (lines 246–249) has no scoped release. -/
theorem capture_release_on_error_cex :
    (record true [ReadEvent.err "device read failed"]).streamClosed = false ∧
    (record true [ReadEvent.err "device read failed"]).audioTerminated = false := by
  decide

/-- C3 amended: the stream and the audio handle are closed and released
when the loop terminates normally after observing the stop flag; when a
device read raises, the handler logs the error, clears the recording flag
and plays the error cue, but does not close the stream or release the
handle. -/
theorem capture_loop_release (enabled : Bool) (events : List ReadEvent) :
    ((readOutcome events).2 = none →
      (record enabled events).streamClosed = true ∧
      (record enabled events).audioTerminated = true) ∧
    (∀ m, (readOutcome events).2 = some m →
      (record enabled events).streamClosed = false ∧
      (record enabled events).audioTerminated = false ∧
      (record enabled events).flagCleared = true ∧
      (record enabled events).effects =
        [Effect.logError m] ++ (if enabled then [Effect.cue "error"] else [])) := by
  rcases hro : readOutcome events with ⟨fr, e⟩
  constructor
  · intro h
    simp only at h
    subst h
    simp [record, hro]
  · intro m hm
    simp only at hm
    subst hm
    simp [record, hro]

/-- Witness for C3 (amended) on a one-chunk normal run and a one-error
run. -/
theorem capture_loop_release_witness :
    ((record true [ReadEvent.chunk [1, 2]]).streamClosed = true ∧
     (record true [ReadEvent.chunk [1, 2]]).audioTerminated = true) ∧
    ((record true [ReadEvent.err "boom"]).streamClosed = false ∧
     (record true [ReadEvent.err "boom"]).audioTerminated = false ∧
     (record true [ReadEvent.err "boom"]).flagCleared = true ∧
     (record true [ReadEvent.err "boom"]).effects =
       [Effect.logError "boom", Effect.cue "error"]) := by
  refine ⟨(capture_loop_release true [ReadEvent.chunk [1, 2]]).1 (by decide), ?_⟩
  have h := (capture_loop_release true [ReadEvent.err "boom"]).2 "boom" (by decide)
  simpa using h

/-- C7 counterexample: a clipboard-write failure propagates out of
`paste_text` — `pyperclip.copy` (line 389) runs before the `try` block. -/
theorem paste_never_raises_cex :
    (paste_text { demoEnv with clipboardOk := false } "hello").raised =
      some "clipboard unavailable" := by
  decide

/-- C7 amended: when the clipboard write succeeds, no exception propagates
out of `paste_text`, and a keystroke failure is only logged, leaving the
text on the clipboard; a clipboard-write failure, however, propagates. -/
theorem paste_failure_handling (env : Env) (text : String) :
    (env.clipboardOk = true →
      (paste_text env text).raised = none ∧
      Effect.clipboardWrite text ∈ (paste_text env text).effects ∧
      (env.pasteOk = false →
        Effect.pasteKeystroke ∉ (paste_text env text).effects ∧
        Effect.logError "Paste failed" ∈ (paste_text env text).effects)) ∧
    (env.clipboardOk = false →
      (paste_text env text).raised = some env.clipboardErrMsg ∧
      (paste_text env text).effects = []) := by
  constructor
  · intro h
    cases hp : env.pasteOk <;> simp [paste_text, h, hp]
  · intro h
    simp [paste_text, h]

/-- Witness for C7 (amended): a failing keystroke is swallowed with the
text on the clipboard; a failing clipboard write raises. -/
theorem paste_failure_handling_witness :
    ((paste_text { demoEnv with pasteOk := false } "hi").raised = none ∧
     Effect.clipboardWrite "hi" ∈
       (paste_text { demoEnv with pasteOk := false } "hi").effects ∧
     (Effect.pasteKeystroke ∉ (paste_text { demoEnv with pasteOk := false } "hi").effects ∧
      Effect.logError "Paste failed" ∈
        (paste_text { demoEnv with pasteOk := false } "hi").effects)) ∧
    ((paste_text { demoEnv with clipboardOk := false } "hi").raised =
       some "clipboard unavailable" ∧
     (paste_text { demoEnv with clipboardOk := false } "hi").effects = []) := by
  constructor
  · have h := (paste_failure_handling { demoEnv with pasteOk := false } "hi").1 (by decide)
    exact ⟨h.1, h.2.1, h.2.2 (by decide)⟩
  · exact (paste_failure_handling { demoEnv with clipboardOk := false } "hi").2 (by decide)

/-- An environment whose remote transcription call fails. -/
def envApiFail : Env := { demoEnv with apiResult := Except.error "network down" }

/-- A failing remote call followed by a failing failure-record journal
append. -/
def envHandlerJournalFail : Env := { envApiFail with journalOk2 := false }

/-- C6 counterexample: when the transcription attempt fails and the
failure-record journal append (lines 380–381) also raises, the exception
propagates out of `transcribe_audio` and `stop_recording` never reaches
`os.unlink` (line 302): the WAV container was written but the temporary
file is not deleted. -/
theorem temp_cleanup_cex :
    Effect.writeWav ∈ (stop_recording demoRecording envHandlerJournalFail).effects ∧
    Effect.unlinkTempFile ∉ (stop_recording demoRecording envHandlerJournalFail).effects ∧
    (stop_recording demoRecording envHandlerJournalFail).raised =
      some "journal append failed in handler" := by
  decide

/-- C6 amended: for every stop that writes the temporary WAV container,
whenever the transcription attempt completes — returning a result or the
in-band no-result failure — the temporary file is deleted; only an
exception escaping `transcribe_audio` (a failing journal append in its
handler) skips the deletion. -/
theorem temp_file_cleanup (s : RState) (env : Env) (v : Option String)
    (hrec : s.is_recording = true) (hframes : s.audio_frames ≠ [])
    (hwav : env.wavWriteOk = true)
    (ht : (transcribe_audio { s with is_recording := false } env
        (encodeWav s.CHANNELS s.RATE s.sampleWidth s.audio_frames).length).result =
      Except.ok v) :
    Effect.unlinkTempFile ∈ (stop_recording s env).effects := by
  unfold stop_recording
  rw [hrec]
  simp only [Bool.true_eq_false, if_false, hwav, if_true, if_neg hframes]
  rw [ht]
  cases v with
  | none => simp
  | some txt =>
    by_cases he : txt = ""
    · simp [he]
    · rcases hp : (paste_text env txt).raised with _ | m <;> simp [he, hp]

/-- Witness for C6 (amended) on the all-successful environment. -/
theorem temp_file_cleanup_witness :
    Effect.unlinkTempFile ∈ (stop_recording demoRecording demoEnv).effects :=
  temp_file_cleanup demoRecording demoEnv (some "hello") (by decide) (by decide)
    (by decide) (by decide)

/-- A successful remote call whose success-record journal append fails. -/
def envTryJournalFail : Env := { demoEnv with journalOk1 := false }

/-- C8 counterexample: the success-path journal append (lines 355–356)
sits inside the `try`, so when it fails the successful transcription is
not returned — `transcribe_audio` yields `None`, nothing is delivered and
no success cue plays. -/
theorem journal_failure_cex :
    (transcribe_audio { demoRecording with is_recording := false } envTryJournalFail
        48).result = Except.ok none ∧
    deliveryInvoked (stop_recording demoRecording envTryJournalFail).effects = false ∧
    cuePlayed (stop_recording demoRecording envTryJournalFail).effects "success" = false := by
  decide

/-- C8 amended: a failing success-path journal append is caught by the
blanket `except` handler, which journals a failure record carrying the
journal exception and returns no result (the successful transcription is
dropped, not delivered); a failing failure-path journal append propagates
the exception out of `transcribe_audio`. -/
theorem journal_failure_handling (s : RState) (env : Env) (fs : Nat) (raw msg : String) :
    (env.apiResult = Except.ok raw → env.journalOk1 = false → env.journalOk2 = true →
      (transcribe_audio s env fs).result = Except.ok none ∧
      journalRecords (transcribe_audio s env fs).effects =
        [failureRecord env.now s.api_provider (recordingDuration s env) fs
          env.journalFailMsg1]) ∧
    (env.apiResult = Except.error msg → env.journalOk2 = false →
      (transcribe_audio s env fs).result = Except.error env.journalFailMsg2 ∧
      journalRecords (transcribe_audio s env fs).effects = []) := by
  constructor
  · intro h1 h2 h3
    by_cases hv : s.voice_effects_enabled <;>
      simp [transcribe_audio, transcribeFailure, audio_cue, h1, h2, h3, hv, journalRecords]
  · intro h1 h2
    by_cases hv : s.voice_effects_enabled <;>
      simp [transcribe_audio, transcribeFailure, audio_cue, h1, h2, hv, journalRecords]

/-- Witness for C8 (amended) on the two concrete journal-failure
environments. -/
theorem journal_failure_handling_witness :
    ((transcribe_audio { demoRecording with is_recording := false } envTryJournalFail
        48).result = Except.ok none ∧
     journalRecords (transcribe_audio { demoRecording with is_recording := false }
        envTryJournalFail 48).effects =
       [failureRecord demoNow "OpenAI" 60 48 "journal append failed in try"]) ∧
    ((transcribe_audio { demoRecording with is_recording := false } envHandlerJournalFail
        48).result = Except.error "journal append failed in handler" ∧
     journalRecords (transcribe_audio { demoRecording with is_recording := false }
        envHandlerJournalFail 48).effects = []) := by
  constructor
  · have h := (journal_failure_handling { demoRecording with is_recording := false }
      envTryJournalFail 48 " hello " "x").1 rfl rfl rfl
    exact ⟨h.1, by rw [h.2]; decide⟩
  · have h := (journal_failure_handling { demoRecording with is_recording := false }
      envHandlerJournalFail 48 " hello " "network down").2 rfl rfl
    exact h

/-- C2: when the remote transcription call fails, the delivery sink is
never invoked (no clipboard write, no paste keystroke), the attempt is
surfaced to the caller as no result (`None`), and exactly one journal
record is appended, carrying the non-empty error text and no transcription
text. -/
theorem transcription_failure_isolated (s : RState) (env : Env) (msg : String)
    (hrec : s.is_recording = true) (hframes : s.audio_frames ≠ [])
    (hwav : env.wavWriteOk = true)
    (happi : env.apiResult = Except.error msg) (hmsg : msg ≠ "")
    (hj2 : env.journalOk2 = true) :
    deliveryInvoked (stop_recording s env).effects = false ∧
    (transcribe_audio { s with is_recording := false } env
        (encodeWav s.CHANNELS s.RATE s.sampleWidth s.audio_frames).length).result =
      Except.ok none ∧
    journalRecords (stop_recording s env).effects =
      [failureRecord env.now s.api_provider
        (recordingDuration { s with is_recording := false } env)
        (encodeWav s.CHANNELS s.RATE s.sampleWidth s.audio_frames).length msg] ∧
    (failureRecord env.now s.api_provider
        (recordingDuration { s with is_recording := false } env)
        (encodeWav s.CHANNELS s.RATE s.sampleWidth s.audio_frames).length msg).error =
      some msg ∧
    (some msg ≠ (some "" : Option String)) ∧
    (failureRecord env.now s.api_provider
        (recordingDuration { s with is_recording := false } env)
        (encodeWav s.CHANNELS s.RATE s.sampleWidth s.audio_frames).length
        msg).transcription_text = none := by
  have hte : transcribe_audio { s with is_recording := false } env
      (encodeWav s.CHANNELS s.RATE s.sampleWidth s.audio_frames).length =
      { effects := [Effect.logError msg] ++
          audio_cue { s with is_recording := false } "error" ++
          [Effect.journalAppend (failureRecord env.now s.api_provider
            (recordingDuration { s with is_recording := false } env)
            (encodeWav s.CHANNELS s.RATE s.sampleWidth s.audio_frames).length msg)]
        result := Except.ok none } := by
    simp [transcribe_audio, transcribeFailure, happi, hj2]
  refine ⟨?_, by rw [hte], ?_, rfl, by simp [hmsg], rfl⟩
  · unfold stop_recording
    rw [hrec]
    simp only [Bool.true_eq_false, if_false, if_true, hwav, if_neg hframes]
    rw [hte]
    by_cases hv : s.voice_effects_enabled <;>
      simp [audio_cue, hv, deliveryInvoked]
  · unfold stop_recording
    rw [hrec]
    simp only [Bool.true_eq_false, if_false, if_true, hwav, if_neg hframes]
    rw [hte]
    by_cases hv : s.voice_effects_enabled <;>
      simp [audio_cue, hv, journalRecords]

/-- Witness for C2 on the concrete failing-endpoint environment. -/
theorem transcription_failure_isolated_witness :
    deliveryInvoked (stop_recording demoRecording envApiFail).effects = false ∧
    (transcribe_audio { demoRecording with is_recording := false } envApiFail
        (encodeWav demoRecording.CHANNELS demoRecording.RATE demoRecording.sampleWidth
          demoRecording.audio_frames).length).result = Except.ok none ∧
    journalRecords (stop_recording demoRecording envApiFail).effects =
      [failureRecord envApiFail.now demoRecording.api_provider
        (recordingDuration { demoRecording with is_recording := false } envApiFail)
        (encodeWav demoRecording.CHANNELS demoRecording.RATE demoRecording.sampleWidth
          demoRecording.audio_frames).length "network down"] ∧
    (failureRecord envApiFail.now demoRecording.api_provider
        (recordingDuration { demoRecording with is_recording := false } envApiFail)
        (encodeWav demoRecording.CHANNELS demoRecording.RATE demoRecording.sampleWidth
          demoRecording.audio_frames).length "network down").error = some "network down" ∧
    (some "network down" ≠ (some "" : Option String)) ∧
    (failureRecord envApiFail.now demoRecording.api_provider
        (recordingDuration { demoRecording with is_recording := false } envApiFail)
        (encodeWav demoRecording.CHANNELS demoRecording.RATE demoRecording.sampleWidth
          demoRecording.audio_frames).length "network down").transcription_text = none :=
  transcription_failure_isolated demoRecording envApiFail "network down" (by decide)
    (by decide) (by decide) rfl (by decide) rfl

/-- C10: when the remote call succeeds but the text is empty after
trimming, `stop_recording` treats it exactly like a failure — no delivery,
the error cue instead of the success cue — although a success record (zero
result length, no error field) was journaled for the attempt. -/
theorem empty_transcription_like_failure (s : RState) (env : Env) (raw : String)
    (hrec : s.is_recording = true) (hframes : s.audio_frames ≠ [])
    (hwav : env.wavWriteOk = true)
    (happi : env.apiResult = Except.ok raw) (hempty : pyStrip raw = "")
    (hj1 : env.journalOk1 = true) (hv : s.voice_effects_enabled = true) :
    deliveryInvoked (stop_recording s env).effects = false ∧
    Effect.cue "success" ∉ (stop_recording s env).effects ∧
    Effect.cue "error" ∈ (stop_recording s env).effects ∧
    journalRecords (stop_recording s env).effects =
      [successRecord env.now s.api_provider
        (recordingDuration { s with is_recording := false } env)
        (recordingDuration { s with is_recording := false } env / 60)
        (encodeWav s.CHANNELS s.RATE s.sampleWidth s.audio_frames).length
        env.apiDuration ""
        (recordingDuration { s with is_recording := false } env / 60 *
          s.cost_per_minute)] ∧
    (successRecord env.now s.api_provider
        (recordingDuration { s with is_recording := false } env)
        (recordingDuration { s with is_recording := false } env / 60)
        (encodeWav s.CHANNELS s.RATE s.sampleWidth s.audio_frames).length
        env.apiDuration ""
        (recordingDuration { s with is_recording := false } env / 60 *
          s.cost_per_minute)).error = none ∧
    (successRecord env.now s.api_provider
        (recordingDuration { s with is_recording := false } env)
        (recordingDuration { s with is_recording := false } env / 60)
        (encodeWav s.CHANNELS s.RATE s.sampleWidth s.audio_frames).length
        env.apiDuration ""
        (recordingDuration { s with is_recording := false } env / 60 *
          s.cost_per_minute)).transcription_length_chars = some 0 := by
  have hte : transcribe_audio { s with is_recording := false } env
      (encodeWav s.CHANNELS s.RATE s.sampleWidth s.audio_frames).length =
      { effects := [Effect.journalAppend (successRecord env.now s.api_provider
          (recordingDuration { s with is_recording := false } env)
          (recordingDuration { s with is_recording := false } env / 60)
          (encodeWav s.CHANNELS s.RATE s.sampleWidth s.audio_frames).length
          env.apiDuration ""
          (recordingDuration { s with is_recording := false } env / 60 *
            s.cost_per_minute))]
        result := Except.ok (some "") } := by
    simp [transcribe_audio, happi, hj1, hempty]
  refine ⟨?_, ?_, ?_, ?_, rfl, rfl⟩ <;>
  · unfold stop_recording
    rw [hrec]
    simp only [Bool.true_eq_false, if_false, if_true, hwav, if_neg hframes]
    rw [hte]
    simp [audio_cue, hv, deliveryInvoked, journalRecords]

/-- An environment whose remote call succeeds with whitespace-only text. -/
def envEmptyText : Env := { demoEnv with apiResult := Except.ok "   " }

/-- Witness for C10 on the concrete whitespace-only-result environment. -/
theorem empty_transcription_like_failure_witness :
    deliveryInvoked (stop_recording demoRecording envEmptyText).effects = false ∧
    Effect.cue "success" ∉ (stop_recording demoRecording envEmptyText).effects ∧
    Effect.cue "error" ∈ (stop_recording demoRecording envEmptyText).effects ∧
    journalRecords (stop_recording demoRecording envEmptyText).effects =
      [successRecord envEmptyText.now demoRecording.api_provider
        (recordingDuration { demoRecording with is_recording := false } envEmptyText)
        (recordingDuration { demoRecording with is_recording := false } envEmptyText / 60)
        (encodeWav demoRecording.CHANNELS demoRecording.RATE demoRecording.sampleWidth
          demoRecording.audio_frames).length
        envEmptyText.apiDuration ""
        (recordingDuration { demoRecording with is_recording := false } envEmptyText / 60 *
          demoRecording.cost_per_minute)] ∧
    (successRecord envEmptyText.now demoRecording.api_provider
        (recordingDuration { demoRecording with is_recording := false } envEmptyText)
        (recordingDuration { demoRecording with is_recording := false } envEmptyText / 60)
        (encodeWav demoRecording.CHANNELS demoRecording.RATE demoRecording.sampleWidth
          demoRecording.audio_frames).length
        envEmptyText.apiDuration ""
        (recordingDuration { demoRecording with is_recording := false } envEmptyText / 60 *
          demoRecording.cost_per_minute)).error = none ∧
    (successRecord envEmptyText.now demoRecording.api_provider
        (recordingDuration { demoRecording with is_recording := false } envEmptyText)
        (recordingDuration { demoRecording with is_recording := false } envEmptyText / 60)
        (encodeWav demoRecording.CHANNELS demoRecording.RATE demoRecording.sampleWidth
          demoRecording.audio_frames).length
        envEmptyText.apiDuration ""
        (recordingDuration { demoRecording with is_recording := false } envEmptyText / 60 *
          demoRecording.cost_per_minute)).transcription_length_chars = some 0 :=
  empty_transcription_like_failure demoRecording envEmptyText "   " (by decide) (by decide)
    (by decide) rfl (by decide) rfl (by decide)

/-- C5: the estimated cost is `(duration seconds / 60) * cost_per_minute`,
where the per-minute rate is fixed at construction from the configured
provider and model (`transcribe_audio` reads it from the instance, never
re-deriving it), and doubling the duration doubles the estimate. -/
theorem cost_model (cfg : Config) (d : ℚ) (s : RState) (env : Env) (fs : Nat)
    (raw : String) (happi : env.apiResult = Except.ok raw)
    (hj1 : env.journalOk1 = true) :
    (initState cfg).cost_per_minute = costPerMinute cfg ∧
    estimatedCost d (costPerMinute cfg) = d / 60 * costPerMinute cfg ∧
    estimatedCost (2 * d) (costPerMinute cfg) = 2 * estimatedCost d (costPerMinute cfg) ∧
    (journalRecords (transcribe_audio s env fs).effects).map
        (fun r => r.estimated_cost_usd) =
      [some (roundTo (estimatedCost (recordingDuration s env) s.cost_per_minute) 6)] := by
  refine ⟨rfl, rfl, by unfold estimatedCost; ring, ?_⟩
  simp [transcribe_audio, happi, hj1, journalRecords, successRecord, estimatedCost]

/-- Witness for C5 at the demo configuration and a one-minute session. -/
theorem cost_model_witness :
    (initState demoConfig).cost_per_minute = costPerMinute demoConfig ∧
    estimatedCost 1 (costPerMinute demoConfig) = 1 / 60 * costPerMinute demoConfig ∧
    estimatedCost (2 * 1) (costPerMinute demoConfig) =
      2 * estimatedCost 1 (costPerMinute demoConfig) ∧
    (journalRecords (transcribe_audio { demoRecording with is_recording := false }
        demoEnv 48).effects).map (fun r => r.estimated_cost_usd) =
      [some (roundTo (estimatedCost
        (recordingDuration { demoRecording with is_recording := false } demoEnv)
        ({ demoRecording with is_recording := false } : RState).cost_per_minute) 6)] :=
  cost_model demoConfig 1 { demoRecording with is_recording := false } demoEnv 48
    " hello " rfl rfl

/-- C4 counterexample: the failure-path journal record (lines 371-378)
carries no estimated-cost field, no duration-in-minutes field and no
API-response-time field, so a failed attempt's record does not contain
everything the claim lists. -/
theorem usage_record_fields_cex :
    journalRecords (transcribe_audio { demoRecording with is_recording := false }
        envApiFail 48).effects =
      [failureRecord demoNow "OpenAI" 60 48 "network down"] ∧
    (failureRecord demoNow "OpenAI" 60 48 "network down").estimated_cost_usd = none ∧
    (failureRecord demoNow "OpenAI" 60 48
      "network down").recording_duration_minutes = none ∧
    (failureRecord demoNow "OpenAI" 60 48
      "network down").api_response_time_seconds = none := by
  decide

/-- C4 amended: every attempt whose journal append succeeds appends exactly
one record; both record shapes carry a parseable timestamp, the provider,
the duration in seconds and the file size; the success record additionally
carries the duration in minutes, the API response time, the result length
and a non-negative estimated cost, while the failure record carries the
error and the failed status but omits the minutes, cost and response-time
fields. -/
theorem usage_record_contents (s : RState) (env : Env) (fs : Nat) (raw msg : String)
    (hnow : env.now.valid) (hdur : 0 ≤ recordingDuration s env)
    (hrate : 0 ≤ s.cost_per_minute) :
    (env.apiResult = Except.ok raw → env.journalOk1 = true →
      journalRecords (transcribe_audio s env fs).effects =
        [successRecord env.now s.api_provider (recordingDuration s env)
          (recordingDuration s env / 60) fs env.apiDuration (pyStrip raw)
          (recordingDuration s env / 60 * s.cost_per_minute)] ∧
      parseTimestamp (successRecord env.now s.api_provider (recordingDuration s env)
          (recordingDuration s env / 60) fs env.apiDuration (pyStrip raw)
          (recordingDuration s env / 60 * s.cost_per_minute)).timestamp = some env.now ∧
      (successRecord env.now s.api_provider (recordingDuration s env)
          (recordingDuration s env / 60) fs env.apiDuration (pyStrip raw)
          (recordingDuration s env / 60 * s.cost_per_minute)).api_provider =
        s.api_provider ∧
      (successRecord env.now s.api_provider (recordingDuration s env)
          (recordingDuration s env / 60) fs env.apiDuration (pyStrip raw)
          (recordingDuration s env / 60 * s.cost_per_minute)).recording_duration_seconds =
        roundTo (recordingDuration s env) 2 ∧
      (successRecord env.now s.api_provider (recordingDuration s env)
          (recordingDuration s env / 60) fs env.apiDuration (pyStrip raw)
          (recordingDuration s env / 60 * s.cost_per_minute)).recording_duration_minutes =
        some (roundTo (recordingDuration s env / 60) 4) ∧
      (successRecord env.now s.api_provider (recordingDuration s env)
          (recordingDuration s env / 60) fs env.apiDuration (pyStrip raw)
          (recordingDuration s env / 60 * s.cost_per_minute)).file_size_bytes = fs ∧
      (successRecord env.now s.api_provider (recordingDuration s env)
          (recordingDuration s env / 60) fs env.apiDuration (pyStrip raw)
          (recordingDuration s env / 60 * s.cost_per_minute)).api_response_time_seconds =
        some (roundTo env.apiDuration 2) ∧
      (successRecord env.now s.api_provider (recordingDuration s env)
          (recordingDuration s env / 60) fs env.apiDuration (pyStrip raw)
          (recordingDuration s env / 60 * s.cost_per_minute)).transcription_length_chars =
        some (pyStrip raw).length ∧
      (∃ c, (successRecord env.now s.api_provider (recordingDuration s env)
          (recordingDuration s env / 60) fs env.apiDuration (pyStrip raw)
          (recordingDuration s env / 60 * s.cost_per_minute)).estimated_cost_usd =
            some c ∧ 0 ≤ c) ∧
      (successRecord env.now s.api_provider (recordingDuration s env)
          (recordingDuration s env / 60) fs env.apiDuration (pyStrip raw)
          (recordingDuration s env / 60 * s.cost_per_minute)).error = none) ∧
    (env.apiResult = Except.error msg → env.journalOk2 = true →
      journalRecords (transcribe_audio s env fs).effects =
        [failureRecord env.now s.api_provider (recordingDuration s env) fs msg] ∧
      parseTimestamp (failureRecord env.now s.api_provider (recordingDuration s env)
          fs msg).timestamp = some env.now ∧
      (failureRecord env.now s.api_provider (recordingDuration s env) fs
          msg).api_provider = s.api_provider ∧
      (failureRecord env.now s.api_provider (recordingDuration s env) fs
          msg).recording_duration_seconds = roundTo (recordingDuration s env) 2 ∧
      (failureRecord env.now s.api_provider (recordingDuration s env) fs
          msg).file_size_bytes = fs ∧
      (failureRecord env.now s.api_provider (recordingDuration s env) fs
          msg).error = some msg ∧
      (failureRecord env.now s.api_provider (recordingDuration s env) fs
          msg).status = some "failed" ∧
      (failureRecord env.now s.api_provider (recordingDuration s env) fs
          msg).estimated_cost_usd = none ∧
      (failureRecord env.now s.api_provider (recordingDuration s env) fs
          msg).recording_duration_minutes = none ∧
      (failureRecord env.now s.api_provider (recordingDuration s env) fs
          msg).api_response_time_seconds = none) := by
  constructor
  · intro h1 h2
    refine ⟨?_, parseTimestamp_isoFormat env.now hnow, rfl, rfl, rfl, rfl, rfl, rfl,
      ⟨roundTo (recordingDuration s env / 60 * s.cost_per_minute) 6, rfl,
        roundTo_nonneg _ _ (mul_nonneg (div_nonneg hdur (by norm_num)) hrate)⟩, rfl⟩
    simp [transcribe_audio, h1, h2, journalRecords]
  · intro h1 h2
    refine ⟨?_, parseTimestamp_isoFormat env.now hnow, rfl, rfl, rfl, rfl, rfl, rfl,
      rfl, rfl⟩
    by_cases hv : s.voice_effects_enabled <;>
      simp [transcribe_audio, transcribeFailure, audio_cue, h1, h2, hv, journalRecords]

/-- The recorder state right after `stop_recording` clears the flag. -/
def demoStopped : RState := { demoRecording with is_recording := false }

/-- Witness for C4 (amended): both branches applied at concrete
environments. -/
theorem usage_record_contents_witness :
    (journalRecords (transcribe_audio demoStopped demoEnv 48).effects =
      [successRecord demoEnv.now demoStopped.api_provider
        (recordingDuration demoStopped demoEnv) (recordingDuration demoStopped demoEnv / 60)
        48 demoEnv.apiDuration (pyStrip " hello ")
        (recordingDuration demoStopped demoEnv / 60 * demoStopped.cost_per_minute)] ∧
      parseTimestamp (successRecord demoEnv.now demoStopped.api_provider
        (recordingDuration demoStopped demoEnv) (recordingDuration demoStopped demoEnv / 60)
        48 demoEnv.apiDuration (pyStrip " hello ")
        (recordingDuration demoStopped demoEnv / 60 * demoStopped.cost_per_minute)).timestamp = some demoEnv.now ∧
      (successRecord demoEnv.now demoStopped.api_provider
        (recordingDuration demoStopped demoEnv) (recordingDuration demoStopped demoEnv / 60)
        48 demoEnv.apiDuration (pyStrip " hello ")
        (recordingDuration demoStopped demoEnv / 60 * demoStopped.cost_per_minute)).api_provider = demoStopped.api_provider ∧
      (successRecord demoEnv.now demoStopped.api_provider
        (recordingDuration demoStopped demoEnv) (recordingDuration demoStopped demoEnv / 60)
        48 demoEnv.apiDuration (pyStrip " hello ")
        (recordingDuration demoStopped demoEnv / 60 * demoStopped.cost_per_minute)).recording_duration_seconds =
        roundTo (recordingDuration demoStopped demoEnv) 2 ∧
      (successRecord demoEnv.now demoStopped.api_provider
        (recordingDuration demoStopped demoEnv) (recordingDuration demoStopped demoEnv / 60)
        48 demoEnv.apiDuration (pyStrip " hello ")
        (recordingDuration demoStopped demoEnv / 60 * demoStopped.cost_per_minute)).recording_duration_minutes =
        some (roundTo (recordingDuration demoStopped demoEnv / 60) 4) ∧
      (successRecord demoEnv.now demoStopped.api_provider
        (recordingDuration demoStopped demoEnv) (recordingDuration demoStopped demoEnv / 60)
        48 demoEnv.apiDuration (pyStrip " hello ")
        (recordingDuration demoStopped demoEnv / 60 * demoStopped.cost_per_minute)).file_size_bytes = 48 ∧
      (successRecord demoEnv.now demoStopped.api_provider
        (recordingDuration demoStopped demoEnv) (recordingDuration demoStopped demoEnv / 60)
        48 demoEnv.apiDuration (pyStrip " hello ")
        (recordingDuration demoStopped demoEnv / 60 * demoStopped.cost_per_minute)).api_response_time_seconds = some (roundTo demoEnv.apiDuration 2) ∧
      (successRecord demoEnv.now demoStopped.api_provider
        (recordingDuration demoStopped demoEnv) (recordingDuration demoStopped demoEnv / 60)
        48 demoEnv.apiDuration (pyStrip " hello ")
        (recordingDuration demoStopped demoEnv / 60 * demoStopped.cost_per_minute)).transcription_length_chars = some (pyStrip " hello ").length ∧
      (∃ c, (successRecord demoEnv.now demoStopped.api_provider
        (recordingDuration demoStopped demoEnv) (recordingDuration demoStopped demoEnv / 60)
        48 demoEnv.apiDuration (pyStrip " hello ")
        (recordingDuration demoStopped demoEnv / 60 * demoStopped.cost_per_minute)).estimated_cost_usd = some c ∧ 0 ≤ c) ∧
      (successRecord demoEnv.now demoStopped.api_provider
        (recordingDuration demoStopped demoEnv) (recordingDuration demoStopped demoEnv / 60)
        48 demoEnv.apiDuration (pyStrip " hello ")
        (recordingDuration demoStopped demoEnv / 60 * demoStopped.cost_per_minute)).error = none) ∧
    (journalRecords (transcribe_audio demoStopped envApiFail 48).effects =
      [failureRecord envApiFail.now demoStopped.api_provider
        (recordingDuration demoStopped envApiFail) 48 "network down"] ∧
      parseTimestamp (failureRecord envApiFail.now demoStopped.api_provider
        (recordingDuration demoStopped envApiFail) 48 "network down").timestamp = some envApiFail.now ∧
      (failureRecord envApiFail.now demoStopped.api_provider
        (recordingDuration demoStopped envApiFail) 48 "network down").api_provider = demoStopped.api_provider ∧
      (failureRecord envApiFail.now demoStopped.api_provider
        (recordingDuration demoStopped envApiFail) 48 "network down").recording_duration_seconds =
        roundTo (recordingDuration demoStopped envApiFail) 2 ∧
      (failureRecord envApiFail.now demoStopped.api_provider
        (recordingDuration demoStopped envApiFail) 48 "network down").file_size_bytes = 48 ∧
      (failureRecord envApiFail.now demoStopped.api_provider
        (recordingDuration demoStopped envApiFail) 48 "network down").error = some "network down" ∧
      (failureRecord envApiFail.now demoStopped.api_provider
        (recordingDuration demoStopped envApiFail) 48 "network down").status = some "failed" ∧
      (failureRecord envApiFail.now demoStopped.api_provider
        (recordingDuration demoStopped envApiFail) 48 "network down").estimated_cost_usd = none ∧
      (failureRecord envApiFail.now demoStopped.api_provider
        (recordingDuration demoStopped envApiFail) 48 "network down").recording_duration_minutes = none ∧
      (failureRecord envApiFail.now demoStopped.api_provider
        (recordingDuration demoStopped envApiFail) 48 "network down").api_response_time_seconds = none) :=
  ⟨(usage_record_contents demoStopped demoEnv 48 " hello " "x" (by decide) (by decide)
      (by decide)).1 rfl rfl,
   (usage_record_contents demoStopped envApiFail 48 " hello " "network down" (by decide)
      (by decide) (by decide)).2 rfl rfl⟩
